import Mathlib

/-!
Verification of the `medical-3d-client` volume view-state and transfer-function
controller against its natural-language specification.

The development shallowly embeds the state and the operations of
`VolumeViewer3D` (src/src/dicom-loader.js) and `MedicalImagingApp`
(the application glue): cameras are triples of real numbers, scalar/opacity
values are rationals, the external rendering engine's containers (VTK actor
properties, cornerstone viewport properties, the tool group) are explicit
record fields, and every mutating method becomes a state-passing function.
-/

set_option maxRecDepth 4000

/-- A 3D vector with real coordinates, as used for camera position,
focal point and view-up. -/
@[ext]
structure Vec3 where
  x : ℝ
  y : ℝ
  z : ℝ

/-- Camera state as read from and written to the viewport
(`viewport.getCamera()` / `viewport.setCamera(camera)`). -/
@[ext]
structure Camera where
  position : Vec3
  focalPoint : Vec3
  viewUp : Vec3
  parallelProjection : Bool
  viewAngle : ℝ
  clippingRange : ℝ × ℝ

/-- Axis-aligned volume bounds, the six scalars returned by
`imageData.getBounds()` in VTK order `[xMin, xMax, yMin, yMax, zMin, zMax]`. -/
@[ext]
structure Bounds where
  xMin : ℝ
  xMax : ℝ
  yMin : ℝ
  yMax : ℝ
  zMin : ℝ
  zMax : ℝ

/-- A color stop of the RGB transfer function, one `addRGBPoint` entry:
scalar value together with red, green and blue channels. -/
structure RGBPoint where
  value : ℚ
  r : ℚ
  g : ℚ
  b : ℚ
deriving DecidableEq

/-- A transfer-function point as passed to
`viewport.setProperties` under the `transferFunctionPoints` key:
scalar value, opacity, and an RGB color. -/
structure TFPoint where
  value : ℚ
  opacity : ℚ
  color : ℚ × ℚ × ℚ
deriving DecidableEq

/-- The `voiRange` entry of the cornerstone viewport properties. -/
structure VoiRange where
  lower : ℚ
  upper : ℚ
deriving DecidableEq

/-- Cornerstone viewport properties (`viewport.getProperties()`), restricted
to the keys the source reads or writes: `voiRange`,
`globalOpacityMultiplier` and `transferFunctionPoints`.
Modelled from the spec: `setProperties` merges keys, each write replaces
only its own entry. -/
structure ViewportProperties where
  voiRange : Option VoiRange
  globalOpacityMultiplier : Option ℚ
  transferFunctionPoints : List TFPoint
deriving DecidableEq

/-- The VTK volume actor property reached through
`volumeActor.actor.getProperty()`: the scalar-opacity piecewise function
(a list of `(scalarValue, opacity)` points, in insertion order, per the
spec's words "clears the opacity ramp, inserts exactly two points") and the
RGB transfer function point list. -/
structure ActorProperty where
  scalarOpacityPoints : List (ℚ × ℚ)
  rgbPoints : List RGBPoint
deriving DecidableEq

/-- A viewport actor entry from `viewport.getActors()`; its `actor` field
may be absent (the source guards `volumeActor && volumeActor.actor`). -/
structure Actor where
  actor : Option ActorProperty
deriving DecidableEq

/-- The bound viewport: camera, cornerstone properties, and VTK actors. -/
@[ext]
structure Viewport where
  camera : Camera
  properties : ViewportProperties
  actors : List Actor

/-- Binding flags of one tool: whether it currently owns the
PrimaryButton gesture and whether it owns the Wheel gesture. -/
structure ToolBindings where
  primary : Bool
  wheel : Bool
deriving DecidableEq

/-- The tool group: binding state of the three registered tools
(TrackballRotate, Pan, Zoom). -/
structure ToolGroup where
  rotate : ToolBindings
  pan : ToolBindings
  zoom : ToolBindings
deriving DecidableEq

/-- The three cornerstone tool identities registered by the viewer. -/
inductive CsTool where
  | trackballRotate
  | pan
  | zoom
deriving DecidableEq

/-- Volume data as stored in `this.currentVolumeData` and in the volume
cache: the slice image ids, the representative metadata record, and the
bounds of the constructed volume's image data (supplied by the external
volume engine). -/
structure VolumeData where
  imageIds : List String
  metadata : String
  bounds : Bounds

/-- State of one `VolumeViewer3D` instance: the optional viewport, the
optional current volume data, the optional cached volume (the external
`cornerstone.cache` entry under this viewer's fixed volume id), the
optional tool group, and the initialization flag. -/
@[ext]
structure VolumeViewer3D where
  viewport : Option Viewport
  currentVolumeData : Option VolumeData
  cacheVolume : Option VolumeData
  toolGroup : Option ToolGroup
  isInitialized : Bool

/-- Window-level setter `VolumeViewer3D.setWindowLevel(width, center)`:
with no viewport or no current volume it is a warned no-op; otherwise it
takes the first actor, and if that actor exposes a VTK actor property it
removes all scalar-opacity points and adds the two points
`(center - width/2, 0.0)` and `(center + width/2, 1.0)`.  The source
performs no validation of `width`. -/
def VolumeViewer3D.setWindowLevel (v : VolumeViewer3D) (width center : ℚ) :
    VolumeViewer3D :=
  match v.viewport, v.currentVolumeData with
  | some vp, some _ =>
    match vp.actors with
    | [] => v
    | a :: rest =>
      match a.actor with
      | none => v
      | some prop =>
        let windowMin := center - width / 2
        let windowMax := center + width / 2
        let prop2 :=
          { prop with scalarOpacityPoints := [(windowMin, 0), (windowMax, 1)] }
        { v with viewport := some { vp with actors := ⟨some prop2⟩ :: rest } }
  | _, _ => v

/-- Window-level getter `VolumeViewer3D.getWindowLevel()`: with no viewport
or no current volume it returns the fixed default `(400, 50)`; otherwise it
reads `properties.voiRange`, returning `(upper - lower, lower + width/2)`
when present and the default otherwise.  It never reads the scalar-opacity
ramp written by `setWindowLevel`. -/
def VolumeViewer3D.getWindowLevel (v : VolumeViewer3D) : ℚ × ℚ :=
  match v.viewport, v.currentVolumeData with
  | some vp, some _ =>
    match vp.properties.voiRange with
    | some r =>
      let width := r.upper - r.lower
      (width, r.lower + width / 2)
    | none => (400, 50)
  | _, _ => (400, 50)

/-- Observation helper: the scalar-opacity point list of the first
viewport actor, when viewport, actor and actor property are all present. -/
def VolumeViewer3D.scalarOpacityOfFirstActor (v : VolumeViewer3D) :
    Option (List (ℚ × ℚ)) :=
  match v.viewport with
  | some vp =>
    match vp.actors with
    | a :: _ => a.actor.map (·.scalarOpacityPoints)
    | [] => none
  | none => none

/-- Observation helper: the `transferFunctionPoints` entry of the viewport
properties, when a viewport is present. -/
def VolumeViewer3D.transferPointsOf (v : VolumeViewer3D) :
    Option (List TFPoint) :=
  v.viewport.map (·.properties.transferFunctionPoints)

/-- Modelled from the spec: the external tool-group primitive
`setToolPassive(tool)` passivates the tool for the PrimaryButton gesture
(its Wheel binding, when present, survives). -/
def ToolGroup.setToolPassive (g : ToolGroup) (t : CsTool) : ToolGroup :=
  match t with
  | .trackballRotate => { g with rotate := { g.rotate with primary := false } }
  | .pan => { g with pan := { g.pan with primary := false } }
  | .zoom => { g with zoom := { g.zoom with primary := false } }

/-- Modelled from the spec: the external tool-group primitive
`setToolActive(tool, bindings: [Primary])` activates the tool for the
PrimaryButton gesture, merging with its existing bindings (idempotent). -/
def ToolGroup.setToolActivePrimary (g : ToolGroup) (t : CsTool) : ToolGroup :=
  match t with
  | .trackballRotate => { g with rotate := { g.rotate with primary := true } }
  | .pan => { g with pan := { g.pan with primary := true } }
  | .zoom => { g with zoom := { g.zoom with primary := true } }

/-- Modelled from the spec: the external tool-group primitive
`setToolActive(tool, bindings: [Wheel])` activates the tool for the
Wheel gesture, merging with its existing bindings (idempotent,
re-applied defensively). -/
def ToolGroup.setToolActiveWheel (g : ToolGroup) (t : CsTool) : ToolGroup :=
  match t with
  | .trackballRotate => { g with rotate := { g.rotate with wheel := true } }
  | .pan => { g with pan := { g.pan with wheel := true } }
  | .zoom => { g with zoom := { g.zoom with wheel := true } }

/-- The viewer's logical-name-to-tool map (`toolMap` in
`VolumeViewer3D.setActiveTool`): `TrackballRotate`, `Pan` and `Zoom` map to
the registered tools, everything else is an invalid name. -/
def VolumeViewer3D.toolMap (toolName : String) : Option CsTool :=
  match toolName with
  | "TrackballRotate" => some .trackballRotate
  | "Pan" => some .pan
  | "Zoom" => some .zoom
  | _ => none

/-- Tool selector `VolumeViewer3D.setActiveTool(toolName)`: warned no-op
without a tool group or for an invalid name; otherwise it passivates all
three tools, re-activates Zoom for the Wheel gesture, then activates the
requested tool for the PrimaryButton gesture. -/
def VolumeViewer3D.setActiveTool (v : VolumeViewer3D) (toolName : String) :
    VolumeViewer3D :=
  match v.toolGroup with
  | none => v
  | some tg =>
    match VolumeViewer3D.toolMap toolName with
    | none => v
    | some t =>
      let tg1 := ((tg.setToolPassive .trackballRotate).setToolPassive
        .pan).setToolPassive .zoom
      let tg2 := tg1.setToolActiveWheel .zoom
      let tg3 := tg2.setToolActivePrimary t
      { v with toolGroup := some tg3 }

/-- The application-level logical-name map used by
`MedicalImagingApp.setActiveTool`: `Rotate` maps to the viewer name
`TrackballRotate`, `Pan` and `Zoom` to themselves, everything else
(for instance `Opacity`) to nothing. -/
def MedicalImagingApp.appToolMap (toolName : String) : Option String :=
  match toolName with
  | "Rotate" => some "TrackballRotate"
  | "Pan" => some "Pan"
  | "Zoom" => some "Zoom"
  | _ => none

/-- Application tool selector `MedicalImagingApp.setActiveTool(toolName)`:
maps the UI name through `appToolMap` and forwards to the viewer; when the
lookup fails the viewer is not called at all. -/
def MedicalImagingApp.setActiveTool (toolName : String) (v : VolumeViewer3D) :
    VolumeViewer3D :=
  match MedicalImagingApp.appToolMap toolName with
  | some viewerTool => v.setActiveTool viewerTool
  | none => v

/-- Midpoint-per-axis center of volume bounds, as computed in
`setupInitialCamera` and `setPresetView`. -/
noncomputable def boundsCenter (bd : Bounds) : Vec3 :=
  ⟨(bd.xMin + bd.xMax) / 2, (bd.yMin + bd.yMax) / 2, (bd.zMin + bd.zMax) / 2⟩

/-- Euclidean length of the bounds extent vector, the `diagonal` of
`setupInitialCamera` and `setPresetView`. -/
noncomputable def boundsDiagonal (bd : Bounds) : ℝ :=
  Real.sqrt ((bd.xMax - bd.xMin) ^ 2 + (bd.yMax - bd.yMin) ^ 2 +
    (bd.zMax - bd.zMin) ^ 2)

/-- The bounds-dependent part of `setupInitialCamera`: focal point at the
center, position at `center + diagonal * (0.8, -0.8, 0.8)`, view-up
`(0, 0, 1)`, clipping range `(diagonal * 0.01, diagonal * 100)`. -/
noncomputable def applyBoundsCamera (bd : Bounds) (cam : Camera) : Camera :=
  let center := boundsCenter bd
  let diagonal := boundsDiagonal bd
  { cam with
    focalPoint := center
    position := ⟨center.x + diagonal * 0.8, center.y - diagonal * 0.8,
      center.z + diagonal * 0.8⟩
    viewUp := ⟨0, 0, 1⟩
    clippingRange := (diagonal * 0.01, diagonal * 100) }

/-- Camera reset `VolumeViewer3D.setupInitialCamera()`: no-op without a
viewport; otherwise it enables parallel projection with the fixed view
angle 45, and, when the volume cache holds this viewer's volume, recenters
the camera on the volume bounds via `applyBoundsCamera`. -/
noncomputable def VolumeViewer3D.setupInitialCamera (v : VolumeViewer3D) :
    VolumeViewer3D :=
  match v.viewport with
  | none => v
  | some vp =>
    let cam := { vp.camera with parallelProjection := true, viewAngle := 45 }
    let cam2 :=
      match v.cacheVolume with
      | some vol => applyBoundsCamera vol.bounds cam
      | none => cam
    { v with viewport := some { vp with camera := cam2 } }

/-- Lowercasing of the axis name (the source's `axis.toLowerCase()`),
written over the character list so that it reduces definitionally. -/
def jsToLowerCase (s : String) : String := ⟨s.data.map Char.toLower⟩

/-- The `case 'x'` branch of `rotateAroundAxis`: planar rotation of the
camera position (about the focal point) and of the view-up in the
(y, z)-plane; the x coordinates and the focal point stay unchanged. -/
noncomputable def rotateCameraX (radians : ℝ) (cam : Camera) : Camera :=
  let c := Real.cos radians
  let s := Real.sin radians
  let p := cam.position
  let f := cam.focalPoint
  let u := cam.viewUp
  let d : Vec3 := ⟨p.x - f.x, p.y - f.y, p.z - f.z⟩
  { cam with
    position := ⟨p.x, f.y + d.y * c - d.z * s, f.z + d.y * s + d.z * c⟩
    viewUp := ⟨u.x, u.y * c - u.z * s, u.y * s + u.z * c⟩ }

/-- The `case 'y'` branch of `rotateAroundAxis`: planar rotation of the
camera position (about the focal point) and of the view-up in the
(x, z)-plane; the y coordinates and the focal point stay unchanged. -/
noncomputable def rotateCameraY (radians : ℝ) (cam : Camera) : Camera :=
  let c := Real.cos radians
  let s := Real.sin radians
  let p := cam.position
  let f := cam.focalPoint
  let u := cam.viewUp
  let d : Vec3 := ⟨p.x - f.x, p.y - f.y, p.z - f.z⟩
  { cam with
    position := ⟨f.x + d.x * c + d.z * s, p.y, f.z - d.x * s + d.z * c⟩
    viewUp := ⟨u.x * c + u.z * s, u.y, -u.x * s + u.z * c⟩ }

/-- The `case 'z'` branch of `rotateAroundAxis`: planar rotation of the
camera position (about the focal point) and of the view-up in the
(x, y)-plane; the z coordinates and the focal point stay unchanged. -/
noncomputable def rotateCameraZ (radians : ℝ) (cam : Camera) : Camera :=
  let c := Real.cos radians
  let s := Real.sin radians
  let p := cam.position
  let f := cam.focalPoint
  let u := cam.viewUp
  let d : Vec3 := ⟨p.x - f.x, p.y - f.y, p.z - f.z⟩
  { cam with
    position := ⟨f.x + d.x * c - d.y * s, f.y + d.x * s + d.y * c, p.z⟩
    viewUp := ⟨u.x * c - u.y * s, u.x * s + u.y * c, u.z⟩ }

/-- Manual rotation `VolumeViewer3D.rotateAroundAxis(axis, degrees)`:
no-op without a viewport; otherwise it lowercases the axis name, converts
degrees to radians, and rotates camera position (about the focal point)
and view-up in the plane orthogonal to the named world axis, leaving the
named coordinate and the focal point unchanged.  Any other axis name
(including the stray dead `o` case of the source, which throws before any
mutation and is caught) leaves the camera unchanged. -/
noncomputable def VolumeViewer3D.rotateAroundAxis (v : VolumeViewer3D)
    (axis : String) (degrees : ℝ) : VolumeViewer3D :=
  match v.viewport with
  | none => v
  | some vp =>
    let radians := degrees * Real.pi / 180
    match jsToLowerCase axis with
    | "x" =>
      let vp2 := { vp with camera := rotateCameraX radians vp.camera }
      { v with viewport := some vp2 }
    | "y" =>
      let vp2 := { vp with camera := rotateCameraY radians vp.camera }
      { v with viewport := some vp2 }
    | "z" =>
      let vp2 := { vp with camera := rotateCameraZ radians vp.camera }
      { v with viewport := some vp2 }
    | _ => v

/-- A color point of a 3D preset, one entry of `preset.colorPoints`:
a scalar value and an RGBA color array. -/
structure ColorPoint where
  value : ℚ
  color : ℚ × ℚ × ℚ × ℚ
deriving DecidableEq

/-- Window-level component of a 3D preset. -/
structure WindowLevel where
  width : ℚ
  center : ℚ
deriving DecidableEq

/-- A named 3D preset bundle: color points, an optional window level and an
optional global opacity, as in the application's preset table. -/
structure Preset where
  name : String
  colorPoints : List ColorPoint
  windowLevel : Option WindowLevel
  opacity : Option ℚ

/-- Color setter `VolumeViewer3D.setRGBTransferFunction(colorPoints)`:
warned no-op without viewport or volume; otherwise it removes all RGB
points of the first actor's property and adds one `addRGBPoint` entry per
color point, in the order provided, using the first three color channels. -/
def VolumeViewer3D.setRGBTransferFunction (v : VolumeViewer3D)
    (colorPoints : List ColorPoint) : VolumeViewer3D :=
  match v.viewport, v.currentVolumeData with
  | some vp, some _ =>
    match vp.actors with
    | [] => v
    | a :: rest =>
      match a.actor with
      | none => v
      | some prop =>
        let pts := colorPoints.map fun pt =>
          RGBPoint.mk pt.value pt.color.1 pt.color.2.1 pt.color.2.2.1
        let prop2 := { prop with rgbPoints := pts }
        { v with viewport := some { vp with actors := ⟨some prop2⟩ :: rest } }
  | _, _ => v

/-- Global-opacity setter `VolumeViewer3D.setVolumeOpacity(opacity)`:
warned no-op without viewport or volume; otherwise it writes the
`globalOpacityMultiplier` viewport property. -/
def VolumeViewer3D.setVolumeOpacity (v : VolumeViewer3D) (opacity : ℚ) :
    VolumeViewer3D :=
  match v.viewport, v.currentVolumeData with
  | some vp, some _ =>
    let props := { vp.properties with globalOpacityMultiplier := some opacity }
    { v with viewport := some { vp with properties := props } }
  | _, _ => v

/-- The fixed table of clinically-defined HU ranges of
`VolumeViewer3D.setTissueOpacities`. -/
def tissueRanges (tissue : String) : Option (ℚ × ℚ) :=
  match tissue with
  | "bone" => some (200, 2000)
  | "softtissue" => some (-100, 200)
  | "lung" => some (-1000, -100)
  | "vessel" => some (100, 400)
  | _ => none

/-- Fixed tissue color table `VolumeViewer3D.getTissueColor(tissue)`,
defaulting to white for unknown tissue names. -/
def VolumeViewer3D.getTissueColor (tissue : String) : ℚ × ℚ × ℚ :=
  match tissue with
  | "bone" => (1.0, 0.9, 0.8)
  | "softtissue" => (0.9, 0.7, 0.6)
  | "lung" => (0.4, 0.6, 0.8)
  | "vessel" => (0.8, 0.2, 0.2)
  | _ => (1.0, 1.0, 1.0)

/-- The transfer-function point list built by
`VolumeViewer3D.setTissueOpacities`: for each entry of the tissue-opacity
map whose key is in the range table, the two range boundary values, each
with the requested opacity and the tissue's fixed color; entries with
unknown keys contribute nothing. -/
def tissuePoints (tissueOpacities : List (String × ℚ)) : List TFPoint :=
  tissueOpacities.flatMap fun entry =>
    match tissueRanges entry.1 with
    | some range =>
      [⟨range.1, entry.2, VolumeViewer3D.getTissueColor entry.1⟩,
       ⟨range.2, entry.2, VolumeViewer3D.getTissueColor entry.1⟩]
    | none => []

/-- Tissue-opacity setter `VolumeViewer3D.setTissueOpacities(map)`:
warned no-op without viewport or volume; otherwise it builds the boundary
point list and, only when that list is non-empty, replaces the
`transferFunctionPoints` viewport property with it. -/
def VolumeViewer3D.setTissueOpacities (v : VolumeViewer3D)
    (tissueOpacities : List (String × ℚ)) : VolumeViewer3D :=
  match v.viewport, v.currentVolumeData with
  | some vp, some _ =>
    let pts := tissuePoints tissueOpacities
    if pts.isEmpty then v
    else
      let props := { vp.properties with transferFunctionPoints := pts }
      { v with viewport := some { vp with properties := props } }
  | _, _ => v

/-- Preset pipeline `VolumeViewer3D.apply3DPreset(preset)`: warned no-op
without viewport or volume; otherwise it applies, in order, the preset's
window level (when present), its color points (when non-empty) and its
global opacity (when defined). -/
def VolumeViewer3D.apply3DPreset (v : VolumeViewer3D) (preset : Preset) :
    VolumeViewer3D :=
  match v.viewport, v.currentVolumeData with
  | some _, some _ =>
    let v1 :=
      match preset.windowLevel with
      | some wl => v.setWindowLevel wl.width wl.center
      | none => v
    let v2 :=
      if preset.colorPoints.isEmpty then v1
      else v1.setRGBTransferFunction preset.colorPoints
    match preset.opacity with
    | some o => v2.setVolumeOpacity o
    | none => v2
  | _, _ => v

/-- One successfully loaded slice as produced by the external DICOM
loader: the cornerstone image id and the extracted metadata. -/
structure SliceResult where
  imageId : String
  metadata : String

/-- The result record of `DicomLoader.loadMultipleDicomFiles`. -/
structure LoadResults where
  successful : List SliceResult
  failed : List String

/-- Volume display `VolumeViewer3D.displayVolume(imageIds, metadata)`:
raises when the viewer is not initialized; otherwise it replaces the
cached volume and the current volume data with the new slice stack (the
constructed volume's bounds are supplied by the external volume engine as
`volBounds`) and re-establishes the initial camera framing. -/
noncomputable def VolumeViewer3D.displayVolume (v : VolumeViewer3D)
    (imageIds : List String) (metadata : String) (volBounds : Bounds) :
    Except String VolumeViewer3D :=
  if v.isInitialized = false then .error "Volume viewer not initialized"
  else
    let vd : VolumeData := ⟨imageIds, metadata, volBounds⟩
    let v1 := { v with cacheVolume := some vd, currentVolumeData := some vd }
    .ok v1.setupInitialCamera

/-- Volume binding `MedicalImagingApp.loadVolumeFromFiles`, applied to the
loader's results: fewer than 2 successful slice references raise the
`Need at least 2 DICOM files` failure and bind nothing; otherwise the
image ids and the first slice's metadata are displayed as a volume and the
TrackballRotate tool is activated. -/
noncomputable def MedicalImagingApp.loadVolumeFromFiles
    (results : LoadResults) (volBounds : Bounds) (v : VolumeViewer3D) :
    Except String VolumeViewer3D :=
  if results.successful.length < 2 then .error "Need at least 2 DICOM files"
  else
    match results.successful with
    | [] => .error "Need at least 2 DICOM files"
    | s :: _ =>
      (v.displayVolume (results.successful.map (·.imageId)) s.metadata
        volBounds).map (·.setActiveTool "TrackballRotate")

/-- Observation helper: the number of slices of the bound volume, when one
is bound. -/
def VolumeViewer3D.sliceCount (v : VolumeViewer3D) : Option Nat :=
  v.currentVolumeData.map (·.imageIds.length)

/-- A concrete camera used by the sample states below. -/
noncomputable def camera0 : Camera :=
  ⟨⟨0, 0, 0⟩, ⟨0, 0, 0⟩, ⟨0, 0, 1⟩, false, 0, (0, 0)⟩

/-- Concrete volume bounds `min = (0,0,0), max = (100,100,100)` from the
spec scenario. -/
noncomputable def bounds100 : Bounds := ⟨0, 100, 0, 100, 0, 100⟩

/-- A concrete bound volume of two slices. -/
noncomputable def vd0 : VolumeData := ⟨["s1", "s2"], "meta", bounds100⟩

/-- Viewport properties with no `voiRange`, no global opacity and no
transfer-function points. -/
def props0 : ViewportProperties := ⟨none, none, []⟩

/-- A concrete actor property whose scalar-opacity ramp holds the single
point `(0, 1/2)`. -/
def actorProp1 : ActorProperty := ⟨[(0, 1/2)], []⟩

/-- A concrete viewport with one actor carrying `actorProp1`. -/
noncomputable def viewport1 : Viewport :=
  ⟨camera0, props0, [⟨some actorProp1⟩]⟩

/-- A concrete viewer with a viewport and a bound two-slice volume. -/
noncomputable def viewer1 : VolumeViewer3D :=
  ⟨some viewport1, some vd0, none, none, true⟩

/-- A concrete viewer with a viewport but no bound volume. -/
noncomputable def viewerNoVol : VolumeViewer3D :=
  ⟨some viewport1, none, none, none, true⟩

/-- The initial tool-group state established by `setupToolGroup`:
TrackballRotate active for PrimaryButton, Zoom active for Wheel,
Pan passive. -/
def tg0 : ToolGroup := ⟨⟨true, false⟩, ⟨false, false⟩, ⟨false, true⟩⟩

/-- A concrete transfer-function point. -/
def tfp0 : TFPoint := ⟨0, 1/2, (0, 0, 0)⟩

/-- A concrete viewer with a bound volume whose viewport properties hold
the single transfer-function point `tfp0`. -/
noncomputable def viewer8 : VolumeViewer3D :=
  ⟨some ⟨camera0, ⟨none, none, [tfp0]⟩, []⟩, some vd0, none, none, true⟩

/-- A concrete 3D preset (the application's `ct-bone` entry). -/
def presetCtBone : Preset :=
  ⟨"CT Bone",
   [⟨-1000, (0, 0, 0, 0)⟩, ⟨200, (0.8, 0.6, 0.4, 0.1)⟩,
    ⟨800, (1.0, 0.9, 0.8, 0.3)⟩, ⟨2000, (1.0, 1.0, 1.0, 1.0)⟩],
   some ⟨2000, 300⟩, some 0.7⟩

/-- Loader results with a single successful slice. -/
def results1 : LoadResults := ⟨[⟨"id1", "m1"⟩], []⟩

/-- Loader results with exactly two successful slices. -/
def results2 : LoadResults := ⟨[⟨"id1", "m1"⟩, ⟨"id2", "m2"⟩], []⟩

/-- An initialized concrete viewer with a viewport and a tool group but no
volume yet. -/
noncomputable def viewerInit : VolumeViewer3D :=
  ⟨some viewport1, none, none, some tg0, true⟩

/-- Helper: `setWindowLevel` never changes the window-level reading of
`getWindowLevel`, because it writes only the first actor's scalar-opacity
ramp while the getter reads `properties.voiRange` and the bound-volume
flags, all of which the setter leaves untouched. -/
theorem VolumeViewer3D.getWindowLevel_after_set (v : VolumeViewer3D)
    (width center : ℚ) :
    (v.setWindowLevel width center).getWindowLevel = v.getWindowLevel := by
  rcases v with ⟨vp, cvd, cache, tg, b⟩
  rcases vp with _ | ⟨cam, props, actors⟩
  · rfl
  rcases cvd with _ | cvd
  · rfl
  rcases actors with _ | ⟨⟨ap⟩, rest⟩
  · rfl
  rcases ap with _ | ap
  · rfl
  rfl

/-- Helper: `setActiveTool` changes at most the tool group, so the slice
count of the bound volume is preserved. -/
theorem VolumeViewer3D.sliceCount_setActiveTool (v : VolumeViewer3D)
    (toolName : String) :
    (v.setActiveTool toolName).sliceCount = v.sliceCount := by
  rcases v with ⟨vp, cvd, cache, tg, b⟩
  rcases tg with _ | tg
  · rfl
  cases h : VolumeViewer3D.toolMap toolName <;>
    simp [VolumeViewer3D.setActiveTool, h, VolumeViewer3D.sliceCount]

/-- Helper: `setupInitialCamera` changes at most the viewport camera, so
the slice count of the bound volume is preserved. -/
theorem VolumeViewer3D.sliceCount_setupInitialCamera (v : VolumeViewer3D) :
    v.setupInitialCamera.sliceCount = v.sliceCount := by
  rcases v with ⟨vp, cvd, cache, tg, b⟩
  rcases vp with _ | vp
  · rfl
  rcases cache with _ | cache
  · rfl
  · rfl

/-- C1 counterexample: on a viewer with a bound volume and a volume actor
whose opacity ramp holds the point `(0, 1/2)`, the call
`setWindowLevel(-10, 0)` — a non-positive width — is not rejected: the
existing ramp is cleared and the two points `(5, 0)` and `(-5, 1)` are
inserted, so the opacity-ramp state changes. -/
theorem setWindowLevel_nonpositive_width_not_rejected :
    (viewer1.setWindowLevel (-10) 0).scalarOpacityOfFirstActor
      = some [(5, 0), (-5, 1)]
    ∧ viewer1.scalarOpacityOfFirstActor = some [(0, 1/2)]
    ∧ some [((5 : ℚ), (0 : ℚ)), (-5, 1)] ≠ some [((0 : ℚ), (1/2 : ℚ))]
    ∧ viewer1.currentVolumeData.isSome = true := by
  refine ⟨?_, ?_, ?_, rfl⟩
  · norm_num [viewer1, viewport1, actorProp1, props0,
      VolumeViewer3D.setWindowLevel, VolumeViewer3D.scalarOpacityOfFirstActor]
  · norm_num [viewer1, viewport1, actorProp1, props0,
      VolumeViewer3D.scalarOpacityOfFirstActor]
  · norm_num

/-- C1 (amended): `setWindowLevel(width, center)` performs no validation of
`width`.  For every width — non-positive widths included — on a viewer with
a bound volume whose first actor exposes an actor property, it replaces the
scalar-opacity ramp with exactly the two points `(center - width/2, 0.0)`
and `(center + width/2, 1.0)`; only the missing-viewport/missing-volume
guard (and a missing actor) makes the call a no-op. -/
theorem setWindowLevel_replaces_ramp_for_all_widths (cam : Camera)
    (props : ViewportProperties) (prop : ActorProperty) (rest : List Actor)
    (vd : VolumeData) (cache : Option VolumeData) (tg : Option ToolGroup)
    (b : Bool) (width center : ℚ) :
    (VolumeViewer3D.mk (some ⟨cam, props, ⟨some prop⟩ :: rest⟩) (some vd)
        cache tg b).setWindowLevel width center
      = VolumeViewer3D.mk
          (some ⟨cam, props,
            ⟨some ⟨[(center - width / 2, 0), (center + width / 2, 1)],
              prop.rgbPoints⟩⟩ :: rest⟩)
          (some vd) cache tg b := rfl

/-- C2 counterexample: on a viewer with a bound volume, a volume actor and
no `voiRange` in the viewport properties, `setWindowLevel(100, 0)` followed
by `getWindowLevel()` yields the fixed default `(400, 50)`, not the pair
`(100, 0)` that was set — the setter/getter round-trip fails. -/
theorem setWindowLevel_getWindowLevel_no_roundtrip :
    (viewer1.setWindowLevel 100 0).getWindowLevel = (400, 50)
    ∧ ((400 : ℚ), (50 : ℚ)) ≠ ((100 : ℚ), (0 : ℚ))
    ∧ viewer1.currentVolumeData.isSome = true := by
  refine ⟨?_, ?_, rfl⟩
  · norm_num [viewer1, viewport1, actorProp1, props0,
      VolumeViewer3D.setWindowLevel, VolumeViewer3D.getWindowLevel]
  · norm_num

/-- C2 (amended): `setWindowLevel(width, center)` followed by
`getWindowLevel()` returns exactly what `getWindowLevel()` returned before
the call — the value derived from `properties.voiRange` when present and
the fixed default `(400, 50)` otherwise — because the setter writes only
the actor's scalar-opacity ramp and never the `voiRange` the getter reads;
the set/get round-trip therefore does not hold in general. -/
theorem getWindowLevel_ignores_setWindowLevel (v : VolumeViewer3D)
    (width center : ℚ) :
    (v.setWindowLevel width center).getWindowLevel = v.getWindowLevel :=
  VolumeViewer3D.getWindowLevel_after_set v width center

/-- C6: `apply3DPreset(preset)` on a viewer with no bound volume is a full
no-op: the guard rejects the call before any of the three steps runs, so
all transfer-function, window and global-opacity state is unchanged. -/
theorem apply3DPreset_no_volume_noop (v : VolumeViewer3D) (preset : Preset)
    (h : v.currentVolumeData = none) : v.apply3DPreset preset = v := by
  rcases v with ⟨vp, cvd, cache, tg, b⟩
  cases h
  rcases vp with _ | vp <;> rfl

/-- C6 witness: the no-volume no-op at the concrete `ct-bone` preset and a
concrete volume-less viewer. -/
theorem apply3DPreset_no_volume_noop_witness :
    viewerNoVol.apply3DPreset presetCtBone = viewerNoVol
    ∧ viewerNoVol.currentVolumeData = none :=
  ⟨apply3DPreset_no_volume_noop viewerNoVol presetCtBone rfl, rfl⟩

/-- C10: whenever no volume is bound, or the viewport properties expose no
`voiRange`, `getWindowLevel()` returns the fixed default
`(width 400, center 50)` — also after an arbitrary prior
`setWindowLevel(width, center)` call, whose value the getter never
reflects. -/
theorem getWindowLevel_default_cases (v : VolumeViewer3D)
    (width center : ℚ) :
    (v.currentVolumeData = none →
      v.getWindowLevel = (400, 50)
      ∧ (v.setWindowLevel width center).getWindowLevel = (400, 50))
    ∧ (∀ vp, v.viewport = some vp → vp.properties.voiRange = none →
      v.getWindowLevel = (400, 50)
      ∧ (v.setWindowLevel width center).getWindowLevel = (400, 50)) := by
  constructor
  · intro h
    have hg : v.getWindowLevel = (400, 50) := by
      rcases v with ⟨vp, cvd, cache, tg, b⟩
      cases h
      rcases vp with _ | vp <;> rfl
    exact ⟨hg, by rw [VolumeViewer3D.getWindowLevel_after_set]; exact hg⟩
  · intro vp hvp hvoi
    have hg : v.getWindowLevel = (400, 50) := by
      rcases v with ⟨vp0, cvd, cache, tg, b⟩
      simp only at hvp
      cases hvp
      rcases cvd with _ | cvd
      · rfl
      · simp [VolumeViewer3D.getWindowLevel, hvoi]
    exact ⟨hg, by rw [VolumeViewer3D.getWindowLevel_after_set]; exact hg⟩

/-- C10 witness: the default is returned at a concrete volume-less viewer
and at a concrete bound viewer whose properties lack `voiRange`. -/
theorem getWindowLevel_default_cases_witness :
    (viewerNoVol.getWindowLevel = (400, 50)
      ∧ (viewerNoVol.setWindowLevel 7 3).getWindowLevel = (400, 50))
    ∧ (viewer1.getWindowLevel = (400, 50)
      ∧ (viewer1.setWindowLevel 7 3).getWindowLevel = (400, 50)) :=
  ⟨(getWindowLevel_default_cases viewerNoVol 7 3).1 rfl,
   (getWindowLevel_default_cases viewer1 7 3).2 viewport1 rfl rfl⟩

/-- C3: on a viewer with a tool group, the application-level
`setActiveTool(X)` for `X ∈ {Rotate, Pan, Zoom}` leaves exactly one of the
three tools bound to the PrimaryButton gesture — the tool `X` maps to —
with the other two passivated for PrimaryButton, and (re-)asserts the
Wheel binding of the Zoom tool, so `setActiveTool(Zoom)` in particular
leaves PrimaryButton bound to Zoom; a name outside the accepted set (for
which the lookup produces nothing) leaves the viewer, and hence every tool
binding, unchanged. -/
theorem setActiveTool_exclusive_primary (vp : Option Viewport)
    (cvd cache : Option VolumeData) (tg : ToolGroup) (b : Bool) :
    ((MedicalImagingApp.setActiveTool "Rotate"
        ⟨vp, cvd, cache, some tg, b⟩).toolGroup
      = some ⟨⟨true, tg.rotate.wheel⟩, ⟨false, tg.pan.wheel⟩, ⟨false, true⟩⟩)
    ∧ ((MedicalImagingApp.setActiveTool "Pan"
        ⟨vp, cvd, cache, some tg, b⟩).toolGroup
      = some ⟨⟨false, tg.rotate.wheel⟩, ⟨true, tg.pan.wheel⟩, ⟨false, true⟩⟩)
    ∧ ((MedicalImagingApp.setActiveTool "Zoom"
        ⟨vp, cvd, cache, some tg, b⟩).toolGroup
      = some ⟨⟨false, tg.rotate.wheel⟩, ⟨false, tg.pan.wheel⟩, ⟨true, true⟩⟩)
    ∧ (∀ toolName, MedicalImagingApp.appToolMap toolName = none →
        MedicalImagingApp.setActiveTool toolName ⟨vp, cvd, cache, some tg, b⟩
          = ⟨vp, cvd, cache, some tg, b⟩) := by
  refine ⟨rfl, rfl, rfl, fun toolName h => ?_⟩
  unfold MedicalImagingApp.setActiveTool
  rw [h]

/-- C3 witness: the guarantees at the initial tool-group state, including
the no-op at the invalid UI name `Opacity`. -/
theorem setActiveTool_exclusive_primary_witness :
    ((MedicalImagingApp.setActiveTool "Zoom"
        ⟨none, none, none, some tg0, true⟩).toolGroup
      = some ⟨⟨false, false⟩, ⟨false, false⟩, ⟨true, true⟩⟩)
    ∧ MedicalImagingApp.setActiveTool "Opacity"
        ⟨none, none, none, some tg0, true⟩
      = ⟨none, none, none, some tg0, true⟩ :=
  ⟨(setActiveTool_exclusive_primary none none none tg0 true).2.2.1,
   (setActiveTool_exclusive_primary none none none tg0 true).2.2.2
     "Opacity" rfl⟩

/-- C4: on a viewer with a viewport, `rotateAroundAxis(axis, degrees)` with
`r = degrees * pi / 180` holds the focal point (and every other camera
field) fixed and applies exactly the planar rotation of position and
view-up in the two non-named axes; for `z`,
`newPosition = (f.x + d.x cos r - d.y sin r, f.y + d.x sin r + d.y cos r,
p.z)` and `newViewUp = (u.x cos r - u.y sin r, u.x sin r + u.y cos r,
u.z)` with `d = position - focal`, and the analogous rotations for `x` and
`y` leave the named coordinate of position and view-up unchanged. -/
theorem rotateAroundAxis_planar_rotation (vp : Viewport)
    (cvd cache : Option VolumeData) (tg : Option ToolGroup) (b : Bool)
    (degrees : ℝ) :
    ((VolumeViewer3D.mk (some vp) cvd cache tg b).rotateAroundAxis "z"
        degrees
      = VolumeViewer3D.mk (some { vp with camera := { vp.camera with
          position := ⟨vp.camera.focalPoint.x
              + (vp.camera.position.x - vp.camera.focalPoint.x)
                * Real.cos (degrees * Real.pi / 180)
              - (vp.camera.position.y - vp.camera.focalPoint.y)
                * Real.sin (degrees * Real.pi / 180),
            vp.camera.focalPoint.y
              + (vp.camera.position.x - vp.camera.focalPoint.x)
                * Real.sin (degrees * Real.pi / 180)
              + (vp.camera.position.y - vp.camera.focalPoint.y)
                * Real.cos (degrees * Real.pi / 180),
            vp.camera.position.z⟩,
          viewUp := ⟨vp.camera.viewUp.x * Real.cos (degrees * Real.pi / 180)
              - vp.camera.viewUp.y * Real.sin (degrees * Real.pi / 180),
            vp.camera.viewUp.x * Real.sin (degrees * Real.pi / 180)
              + vp.camera.viewUp.y * Real.cos (degrees * Real.pi / 180),
            vp.camera.viewUp.z⟩ } }) cvd cache tg b)
    ∧ ((VolumeViewer3D.mk (some vp) cvd cache tg b).rotateAroundAxis "x"
        degrees
      = VolumeViewer3D.mk (some { vp with camera := { vp.camera with
          position := ⟨vp.camera.position.x,
            vp.camera.focalPoint.y
              + (vp.camera.position.y - vp.camera.focalPoint.y)
                * Real.cos (degrees * Real.pi / 180)
              - (vp.camera.position.z - vp.camera.focalPoint.z)
                * Real.sin (degrees * Real.pi / 180),
            vp.camera.focalPoint.z
              + (vp.camera.position.y - vp.camera.focalPoint.y)
                * Real.sin (degrees * Real.pi / 180)
              + (vp.camera.position.z - vp.camera.focalPoint.z)
                * Real.cos (degrees * Real.pi / 180)⟩,
          viewUp := ⟨vp.camera.viewUp.x,
            vp.camera.viewUp.y * Real.cos (degrees * Real.pi / 180)
              - vp.camera.viewUp.z * Real.sin (degrees * Real.pi / 180),
            vp.camera.viewUp.y * Real.sin (degrees * Real.pi / 180)
              + vp.camera.viewUp.z * Real.cos (degrees * Real.pi / 180)⟩
          } }) cvd cache tg b)
    ∧ ((VolumeViewer3D.mk (some vp) cvd cache tg b).rotateAroundAxis "y"
        degrees
      = VolumeViewer3D.mk (some { vp with camera := { vp.camera with
          position := ⟨vp.camera.focalPoint.x
              + (vp.camera.position.x - vp.camera.focalPoint.x)
                * Real.cos (degrees * Real.pi / 180)
              + (vp.camera.position.z - vp.camera.focalPoint.z)
                * Real.sin (degrees * Real.pi / 180),
            vp.camera.position.y,
            vp.camera.focalPoint.z
              - (vp.camera.position.x - vp.camera.focalPoint.x)
                * Real.sin (degrees * Real.pi / 180)
              + (vp.camera.position.z - vp.camera.focalPoint.z)
                * Real.cos (degrees * Real.pi / 180)⟩,
          viewUp := ⟨vp.camera.viewUp.x * Real.cos (degrees * Real.pi / 180)
              + vp.camera.viewUp.z * Real.sin (degrees * Real.pi / 180),
            vp.camera.viewUp.y,
            -vp.camera.viewUp.x * Real.sin (degrees * Real.pi / 180)
              + vp.camera.viewUp.z * Real.cos (degrees * Real.pi / 180)⟩
          } }) cvd cache tg b) :=
  ⟨rfl, rfl, rfl⟩

/-- Helper: rotating about the x axis by `d` degrees and then by `-d`
degrees restores the camera exactly. -/
theorem rotateCameraX_inv (d : ℝ) (cam : Camera) :
    rotateCameraX ((-d) * Real.pi / 180)
      (rotateCameraX (d * Real.pi / 180) cam) = cam := by
  have hneg : (-d) * Real.pi / 180 = -(d * Real.pi / 180) := by ring
  have hs := Real.sin_sq_add_cos_sq (d * Real.pi / 180)
  refine Camera.ext (Vec3.ext ?_ ?_ ?_) rfl (Vec3.ext ?_ ?_ ?_) rfl rfl rfl
  · rfl
  · simp only [rotateCameraX, hneg, Real.cos_neg, Real.sin_neg]
    linear_combination (cam.position.y - cam.focalPoint.y) * hs
  · simp only [rotateCameraX, hneg, Real.cos_neg, Real.sin_neg]
    linear_combination (cam.position.z - cam.focalPoint.z) * hs
  · rfl
  · simp only [rotateCameraX, hneg, Real.cos_neg, Real.sin_neg]
    linear_combination cam.viewUp.y * hs
  · simp only [rotateCameraX, hneg, Real.cos_neg, Real.sin_neg]
    linear_combination cam.viewUp.z * hs

/-- Helper: rotating about the y axis by `d` degrees and then by `-d`
degrees restores the camera exactly. -/
theorem rotateCameraY_inv (d : ℝ) (cam : Camera) :
    rotateCameraY ((-d) * Real.pi / 180)
      (rotateCameraY (d * Real.pi / 180) cam) = cam := by
  have hneg : (-d) * Real.pi / 180 = -(d * Real.pi / 180) := by ring
  have hs := Real.sin_sq_add_cos_sq (d * Real.pi / 180)
  refine Camera.ext (Vec3.ext ?_ ?_ ?_) rfl (Vec3.ext ?_ ?_ ?_) rfl rfl rfl
  · simp only [rotateCameraY, hneg, Real.cos_neg, Real.sin_neg]
    linear_combination (cam.position.x - cam.focalPoint.x) * hs
  · rfl
  · simp only [rotateCameraY, hneg, Real.cos_neg, Real.sin_neg]
    linear_combination (cam.position.z - cam.focalPoint.z) * hs
  · simp only [rotateCameraY, hneg, Real.cos_neg, Real.sin_neg]
    linear_combination cam.viewUp.x * hs
  · rfl
  · simp only [rotateCameraY, hneg, Real.cos_neg, Real.sin_neg]
    linear_combination cam.viewUp.z * hs

/-- Helper: rotating about the z axis by `d` degrees and then by `-d`
degrees restores the camera exactly. -/
theorem rotateCameraZ_inv (d : ℝ) (cam : Camera) :
    rotateCameraZ ((-d) * Real.pi / 180)
      (rotateCameraZ (d * Real.pi / 180) cam) = cam := by
  have hneg : (-d) * Real.pi / 180 = -(d * Real.pi / 180) := by ring
  have hs := Real.sin_sq_add_cos_sq (d * Real.pi / 180)
  refine Camera.ext (Vec3.ext ?_ ?_ ?_) rfl (Vec3.ext ?_ ?_ ?_) rfl rfl rfl
  · simp only [rotateCameraZ, hneg, Real.cos_neg, Real.sin_neg]
    linear_combination (cam.position.x - cam.focalPoint.x) * hs
  · simp only [rotateCameraZ, hneg, Real.cos_neg, Real.sin_neg]
    linear_combination (cam.position.y - cam.focalPoint.y) * hs
  · rfl
  · simp only [rotateCameraZ, hneg, Real.cos_neg, Real.sin_neg]
    linear_combination cam.viewUp.x * hs
  · simp only [rotateCameraZ, hneg, Real.cos_neg, Real.sin_neg]
    linear_combination cam.viewUp.y * hs
  · rfl

/-- C5: for every axis in `{x, y, z}` and every angle `d`,
`rotateAroundAxis(axis, d)` followed by `rotateAroundAxis(axis, -d)`
restores camera position and view-up (indeed the whole viewer state)
exactly — each per-axis rotation has an exact inverse. -/
theorem rotateAroundAxis_inverse (vp : Viewport)
    (cvd cache : Option VolumeData) (tg : Option ToolGroup) (b : Bool)
    (d : ℝ) :
    (((VolumeViewer3D.mk (some vp) cvd cache tg b).rotateAroundAxis "x"
          d).rotateAroundAxis "x" (-d)
      = VolumeViewer3D.mk (some vp) cvd cache tg b)
    ∧ (((VolumeViewer3D.mk (some vp) cvd cache tg b).rotateAroundAxis "y"
          d).rotateAroundAxis "y" (-d)
      = VolumeViewer3D.mk (some vp) cvd cache tg b)
    ∧ (((VolumeViewer3D.mk (some vp) cvd cache tg b).rotateAroundAxis "z"
          d).rotateAroundAxis "z" (-d)
      = VolumeViewer3D.mk (some vp) cvd cache tg b) := by
  refine ⟨?_, ?_, ?_⟩
  · show VolumeViewer3D.mk
        (some { vp with camera := (rotateCameraX ((-d) * Real.pi / 180)
          (rotateCameraX (d * Real.pi / 180) vp.camera)) }) cvd cache tg b
      = VolumeViewer3D.mk (some vp) cvd cache tg b
    rw [rotateCameraX_inv d vp.camera]
  · show VolumeViewer3D.mk
        (some { vp with camera := (rotateCameraY ((-d) * Real.pi / 180)
          (rotateCameraY (d * Real.pi / 180) vp.camera)) }) cvd cache tg b
      = VolumeViewer3D.mk (some vp) cvd cache tg b
    rw [rotateCameraY_inv d vp.camera]
  · show VolumeViewer3D.mk
        (some { vp with camera := (rotateCameraZ ((-d) * Real.pi / 180)
          (rotateCameraZ (d * Real.pi / 180) vp.camera)) }) cvd cache tg b
      = VolumeViewer3D.mk (some vp) cvd cache tg b
    rw [rotateCameraZ_inv d vp.camera]

/-- Helper: the square root of 3 lies strictly between 1.732 and 1.7325. -/
theorem sqrt_three_bounds :
    (1.732 : ℝ) < Real.sqrt 3 ∧ Real.sqrt 3 < 1.7325 := by
  constructor
  · rw [show (1.732 : ℝ) = 1.732 from rfl]
    rw [Real.lt_sqrt (by norm_num)]
    norm_num
  · rw [Real.sqrt_lt' (by norm_num)]
    norm_num

/-- C7: for every volume bounds, the camera reset of `setupInitialCamera`
sets focal point = per-axis midpoint `center`, position =
`center + diagonal * (0.8, -0.8, 0.8)` with `diagonal` the Euclidean
length of the extent vector, view-up `(0, 0, 1)`, clipping range
`(0.01 * diagonal, 100 * diagonal)`, and enables parallel projection; for
bounds `min = (0,0,0), max = (100,100,100)` the center is `(50, 50, 50)`,
the diagonal is `100 * sqrt 3`, strictly between 173.2 and 173.3 (so about
173.2), and the position offset `diagonal * 0.8` lies strictly between
138.5 and 138.6 (so about 138.6). -/
theorem setupInitialCamera_frames_bounds (vp : Viewport)
    (cvd : Option VolumeData) (vd : VolumeData) (tg : Option ToolGroup)
    (b : Bool) :
    ((VolumeViewer3D.mk (some vp) cvd (some vd) tg b).setupInitialCamera
      = VolumeViewer3D.mk
          (some { vp with camera := { vp.camera with
            parallelProjection := true
            viewAngle := 45
            focalPoint := ⟨(vd.bounds.xMin + vd.bounds.xMax) / 2,
              (vd.bounds.yMin + vd.bounds.yMax) / 2,
              (vd.bounds.zMin + vd.bounds.zMax) / 2⟩
            position := ⟨(vd.bounds.xMin + vd.bounds.xMax) / 2
                + boundsDiagonal vd.bounds * 0.8,
              (vd.bounds.yMin + vd.bounds.yMax) / 2
                - boundsDiagonal vd.bounds * 0.8,
              (vd.bounds.zMin + vd.bounds.zMax) / 2
                + boundsDiagonal vd.bounds * 0.8⟩
            viewUp := ⟨0, 0, 1⟩
            clippingRange := (boundsDiagonal vd.bounds * 0.01,
              boundsDiagonal vd.bounds * 100) } })
          cvd (some vd) tg b)
    ∧ boundsDiagonal vd.bounds
      = Real.sqrt ((vd.bounds.xMax - vd.bounds.xMin) ^ 2
          + (vd.bounds.yMax - vd.bounds.yMin) ^ 2
          + (vd.bounds.zMax - vd.bounds.zMin) ^ 2)
    ∧ boundsCenter bounds100 = ⟨50, 50, 50⟩
    ∧ boundsDiagonal bounds100 = 100 * Real.sqrt 3
    ∧ (173.2 : ℝ) < boundsDiagonal bounds100
    ∧ boundsDiagonal bounds100 < 173.3
    ∧ (138.5 : ℝ) < boundsDiagonal bounds100 * 0.8
    ∧ boundsDiagonal bounds100 * 0.8 < 138.6 := by
  have hd : boundsDiagonal bounds100 = 100 * Real.sqrt 3 := by
    rw [boundsDiagonal]
    rw [show ((bounds100.xMax - bounds100.xMin) ^ 2
        + (bounds100.yMax - bounds100.yMin) ^ 2
        + (bounds100.zMax - bounds100.zMin) ^ 2 : ℝ)
      = 100 ^ 2 * 3 by norm_num [bounds100]]
    rw [Real.sqrt_mul (by positivity) 3, Real.sqrt_sq (by norm_num)]
  have h3 := sqrt_three_bounds
  refine ⟨rfl, rfl, ?_, hd, ?_, ?_, ?_, ?_⟩
  · refine Vec3.ext ?_ ?_ ?_ <;> norm_num [boundsCenter, bounds100]
  · rw [hd]; nlinarith [h3.1]
  · rw [hd]; nlinarith [h3.2]
  · rw [hd]; nlinarith [h3.1]
  · rw [hd]; nlinarith [h3.2]

/-- C8 counterexample: on a bound viewer whose transfer-function point
list holds one point, `setTissueOpacities` with a map whose only key is
unknown leaves the old non-empty list in place instead of rebuilding it
to the empty list the claim implies (all keys ignored, so no points). -/
theorem setTissueOpacities_unknown_only_keeps_old_list :
    viewer8.setTissueOpacities [("unknown", 1/2)] = viewer8
    ∧ viewer8.transferPointsOf = some [tfp0]
    ∧ some [tfp0] ≠ some ([] : List TFPoint)
    ∧ viewer8.currentVolumeData.isSome = true := by
  refine ⟨rfl, rfl, by simp, rfl⟩

/-- C8 (amended): on a bound viewer, `setTissueOpacities(map)` builds, for
each key of the map present in the fixed range table — bone `[200, 2000]`,
soft tissue `[-100, 200]`, lung `[-1000, -100]`, vessel `[100, 400]` —
exactly the range's two boundary scalar values, each tagged with the
tissue's fixed color and the requested opacity, keys outside the table
contributing no points; when at least one point results the
transfer-function point list is replaced wholesale by this list, but when
no key matches (so no points result) the existing list is left unchanged
rather than cleared. -/
theorem setTissueOpacities_boundary_points (cam : Camera)
    (props : ViewportProperties) (actors : List Actor) (vd : VolumeData)
    (cache : Option VolumeData) (tg : Option ToolGroup) (b : Bool)
    (m : List (String × ℚ)) :
    (tissuePoints m ≠ [] →
      (VolumeViewer3D.mk (some ⟨cam, props, actors⟩) (some vd) cache tg
          b).setTissueOpacities m
        = VolumeViewer3D.mk
            (some ⟨cam,
              { props with transferFunctionPoints := (tissuePoints m) },
              actors⟩)
            (some vd) cache tg b)
    ∧ (tissuePoints m = [] →
      (VolumeViewer3D.mk (some ⟨cam, props, actors⟩) (some vd) cache tg
          b).setTissueOpacities m
        = VolumeViewer3D.mk (some ⟨cam, props, actors⟩) (some vd) cache tg b)
    ∧ (∀ o : ℚ, tissuePoints [("bone", o)]
        = [⟨200, o, (1.0, 0.9, 0.8)⟩, ⟨2000, o, (1.0, 0.9, 0.8)⟩])
    ∧ (∀ o : ℚ, tissuePoints [("softtissue", o)]
        = [⟨-100, o, (0.9, 0.7, 0.6)⟩, ⟨200, o, (0.9, 0.7, 0.6)⟩])
    ∧ (∀ o : ℚ, tissuePoints [("lung", o)]
        = [⟨-1000, o, (0.4, 0.6, 0.8)⟩, ⟨-100, o, (0.4, 0.6, 0.8)⟩])
    ∧ (∀ o : ℚ, tissuePoints [("vessel", o)]
        = [⟨100, o, (0.8, 0.2, 0.2)⟩, ⟨400, o, (0.8, 0.2, 0.2)⟩])
    ∧ (∀ (t : String) (o : ℚ), tissueRanges t = none →
        tissuePoints [(t, o)] = [])
    ∧ (∀ (p : String × ℚ) (m2 : List (String × ℚ)),
        tissuePoints (p :: m2) = tissuePoints [p] ++ tissuePoints m2) := by
  refine ⟨?_, ?_, fun o => rfl, fun o => rfl, fun o => rfl, fun o => rfl,
    ?_, ?_⟩
  · intro h
    cases hpt : tissuePoints m with
    | nil => exact absurd hpt h
    | cons q l =>
      simp [VolumeViewer3D.setTissueOpacities, hpt]
  · intro h
    simp [VolumeViewer3D.setTissueOpacities, h]
  · intro t o h
    simp [tissuePoints, h]
  · intro p m2
    simp [tissuePoints]

/-- C8 witness: the amended behavior at concrete inputs — a map with one
known and one unknown key replaces the list with the bone boundary
points, a map with only an unknown key leaves the state unchanged, and
the per-tissue point shapes at opacity 1/2. -/
theorem setTissueOpacities_boundary_points_witness :
    ((VolumeViewer3D.mk (some ⟨camera0, props0, []⟩) (some vd0) none none
        true).setTissueOpacities [("bone", 1/2), ("unknown", 1)]
      = VolumeViewer3D.mk
          (some ⟨camera0,
            { props0 with transferFunctionPoints :=
              (tissuePoints [("bone", 1/2), ("unknown", 1)]) },
            []⟩)
          (some vd0) none none true)
    ∧ ((VolumeViewer3D.mk (some ⟨camera0, props0, []⟩) (some vd0) none none
        true).setTissueOpacities [("nope", 1)]
      = VolumeViewer3D.mk (some ⟨camera0, props0, []⟩) (some vd0) none none
          true)
    ∧ tissuePoints [("bone", 1/2)]
      = [⟨200, 1/2, (1.0, 0.9, 0.8)⟩, ⟨2000, 1/2, (1.0, 0.9, 0.8)⟩]
    ∧ tissuePoints [("nope", 1)] = [] :=
  ⟨(setTissueOpacities_boundary_points camera0 props0 [] vd0 none none true
      [("bone", 1/2), ("unknown", 1)]).1 (by simp [tissuePoints,
        tissueRanges]),
   (setTissueOpacities_boundary_points camera0 props0 [] vd0 none none true
      [("nope", 1)]).2.1 rfl,
   (setTissueOpacities_boundary_points camera0 props0 [] vd0 none none true
      []).2.2.1 (1/2),
   (setTissueOpacities_boundary_points camera0 props0 [] vd0 none none true
      []).2.2.2.2.2.2.1 "nope" 1 rfl⟩

/-- Helper: `setActiveTool` changes at most the tool group, so the bound
volume data is preserved. -/
theorem VolumeViewer3D.currentVolumeData_setActiveTool (v : VolumeViewer3D)
    (toolName : String) :
    (v.setActiveTool toolName).currentVolumeData = v.currentVolumeData := by
  rcases v with ⟨vp, cvd, cache, tg, b⟩
  rcases tg with _ | tg
  · rfl
  cases h : VolumeViewer3D.toolMap toolName <;>
    simp [VolumeViewer3D.setActiveTool, h]

/-- Helper: `setupInitialCamera` changes at most the viewport camera, so
the bound volume data is preserved. -/
theorem VolumeViewer3D.currentVolumeData_setupInitialCamera
    (v : VolumeViewer3D) :
    v.setupInitialCamera.currentVolumeData = v.currentVolumeData := by
  rcases v with ⟨vp, cvd, cache, tg, b⟩
  rcases vp with _ | vp
  · rfl
  rcases cache with _ | cache
  · rfl
  · rfl

/-- C9: binding a volume through `loadVolumeFromFiles` with fewer than 2
successful slice references raises the `Need at least 2 DICOM files`
failure (so nothing is bound), while with exactly 2 slice references on an
initialized viewer it succeeds and the bound volume's slice count is 2. -/
theorem loadVolumeFromFiles_slice_contract (results : LoadResults)
    (volBounds : Bounds) (v : VolumeViewer3D) :
    (results.successful.length < 2 →
      MedicalImagingApp.loadVolumeFromFiles results volBounds v
        = .error "Need at least 2 DICOM files")
    ∧ (results.successful.length = 2 → v.isInitialized = true →
      (MedicalImagingApp.loadVolumeFromFiles results volBounds v).map
          VolumeViewer3D.sliceCount
        = .ok (some 2)) := by
  constructor
  · intro h
    simp [MedicalImagingApp.loadVolumeFromFiles, h]
  · intro h2 hinit
    rcases hs : results.successful with _ | ⟨s, rest⟩
    · rw [hs] at h2; simp at h2
    rw [hs] at h2
    simp only [List.length_cons] at h2
    have hlen2 : ¬ rest.length + 1 < 2 := by omega
    simp [MedicalImagingApp.loadVolumeFromFiles, VolumeViewer3D.displayVolume,
      hs, hlen2, hinit, Except.map,
      VolumeViewer3D.currentVolumeData_setActiveTool,
      VolumeViewer3D.currentVolumeData_setupInitialCamera,
      VolumeViewer3D.sliceCount]
    all_goals omega

/-- C9 witness: one successful slice is rejected, two successful slices on
an initialized concrete viewer bind a volume with slice count 2. -/
theorem loadVolumeFromFiles_slice_contract_witness :
    MedicalImagingApp.loadVolumeFromFiles results1 bounds100 viewerInit
      = .error "Need at least 2 DICOM files"
    ∧ (MedicalImagingApp.loadVolumeFromFiles results2 bounds100
        viewerInit).map VolumeViewer3D.sliceCount = .ok (some 2) :=
  ⟨(loadVolumeFromFiles_slice_contract results1 bounds100 viewerInit).1
      (by norm_num [results1]),
   (loadVolumeFromFiles_slice_contract results2 bounds100 viewerInit).2
      (by norm_num [results2]) rfl⟩
